import Mathlib

/-!
Shallow embedding of the multi-strategy media search and ranking engine of the
genai-v repository: the Pexels video search orchestration
(`backend/pexels_video_generator.py`), the photo relevance scorer
(`backend/advanced_ai_generator.py`), the scene-type recommendations of the
smart learner (`backend/smart_learner.py`) and the pattern/confidence learning
of the intelligent trainer (`backend/intelligent_trainer.py`).

Modelling conventions, stated once:
* Python floats are modelled as exact rationals (`ℚ`); all float literals in
  the source are exactly representable.
* Python strings are Lean `String`s; `str.lower()` is modelled as ASCII
  lowercasing (`pyLower`), `str.split()` as splitting on whitespace runs
  (`pySplit`), `x in s` as substring containment (`substrOf`).
* `nltk.word_tokenize` is modelled as whitespace tokenization, which agrees
  with it on space-separated alphabetic text (the domain of every concrete
  input used below); the NLTK English stopword corpus, a data file external to
  the repository, is reproduced verbatim in `nltk_stopwords`.
* Dictionaries read from JSON provider responses are modelled as structures;
  a field accessed with `dict.get(key, default)` becomes an `Option` field
  read with `getD default`, and a string field whose Python truthiness is
  tested becomes a `String` where `""` plays the role of absent/falsy.
* The external HTTP search provider is an explicit oracle
  `ReqParams → Except String (List RawVideo)`; a raised requests exception or
  non-2xx status is the `Except.error` case.
* `list.sort(key=k, reverse=True)` (a stable descending sort) is modelled by
  the stable insertion sort `stableSortDesc`.
* Wall-clock timestamps recorded by the learners are omitted: they are never
  read back by any code path modelled here.
-/

/-! ## Python string primitives -/

/-- ASCII lowercasing of one character (model of `str.lower()` per character). -/
def asciiLowerChar (c : Char) : Char :=
  if 65 ≤ c.toNat ∧ c.toNat ≤ 90 then Char.ofNat (c.toNat + 32) else c

/-- Model of Python `str.lower()`. -/
def pyLower (s : String) : String := ⟨s.toList.map asciiLowerChar⟩

/-- Splitting helper: accumulates the current word (reversed) while scanning. -/
def pySplitAux : List Char → List Char → List (List Char)
  | cur, [] => if cur.isEmpty then [] else [cur.reverse]
  | cur, c :: cs =>
    if c.isWhitespace then
      if cur.isEmpty then pySplitAux [] cs else cur.reverse :: pySplitAux [] cs
    else pySplitAux (c :: cur) cs

/-- Model of Python `str.split()` with no argument: split on runs of
whitespace, discarding empty fields. -/
def pySplit (s : String) : List String := (pySplitAux [] s.toList).map String.mk

/-- Substring search on character lists. -/
def substrAux (pat : List Char) : List Char → Bool
  | [] => pat.isEmpty
  | c :: t => pat.isPrefixOf (c :: t) || substrAux pat t

/-- Model of the Python membership test `needle in hay` on strings. -/
def substrOf (needle hay : String) : Bool := substrAux needle.toList hay.toList

/-- Model of Python `str.strip(chars)`: remove the given characters from both
ends. -/
def pyStrip (chars : List Char) (s : String) : String :=
  ⟨((s.toList.dropWhile (fun c => chars.contains c)).reverse.dropWhile
      (fun c => chars.contains c)).reverse⟩

/-- Model of Python `str.strip()` (no argument): strip whitespace. -/
def pyStripWs (s : String) : String :=
  ⟨((s.toList.dropWhile Char.isWhitespace).reverse.dropWhile
      Char.isWhitespace).reverse⟩

/-- Model of Python `" ".join(words)`. -/
def joinSpace : List String → String
  | [] => ""
  | [w] => w
  | w :: ws => w ++ " " ++ joinSpace ws

/-- Model of Python `str.isalpha()`: non-empty and every character alphabetic. -/
def isAlphaStr (s : String) : Bool := !s.toList.isEmpty && s.toList.all Char.isAlpha

/-- Stable insertion of one element into a descending-sorted list: the new
element is placed after every already-present element that is not strictly
below it, so elements with equal keys keep their arrival order. -/
def insertDesc (gt : α → α → Bool) (a : α) : List α → List α
  | [] => [a]
  | b :: bs => if gt a b then a :: b :: bs else b :: insertDesc gt a bs

/-- Stable descending sort, the model of Python
`list.sort(key=..., reverse=True)` (timsort is stable; any stable sort
produces the same list). -/
def stableSortDesc (gt : α → α → Bool) (l : List α) : List α :=
  l.foldl (fun acc a => insertDesc gt a acc) []

/-! ## Keyword extraction (`extract_keywords_for_pexels`, lines 13-92) -/

/-- The `important_modifiers` set of `extract_keywords_for_pexels`
(pexels_video_generator.py lines 39-46). -/
def important_modifiers : List String :=
  ["beautiful", "stunning", "peaceful", "majestic", "vibrant", "serene", "dramatic",
   "calm", "wild", "bright", "dark", "colorful", "golden", "crystal", "turquoise",
   "cozy", "modern", "futuristic", "vintage", "elegant", "minimalist", "rustic",
   "tropical", "ancient", "historic", "contemporary", "luxurious", "charming",
   "sunset", "sunrise", "night", "day", "morning", "evening", "aerial", "close-up",
   "slow", "fast", "cinematic", "natural", "urban", "rural", "underwater", "timelapse"]

/-- The NLTK English stopword corpus (`stopwords.words("english")`), external
data loaded by the source; reproduced as shipped with NLTK 3.x. -/
def nltk_stopwords : List String :=
  ["i", "me", "my", "myself", "we", "our", "ours", "ourselves", "you",
   "you\x27re", "you\x27ve", "you\x27ll", "you\x27d", "your", "yours",
   "yourself", "yourselves", "he", "him", "his", "himself", "she",
   "she\x27s", "her", "hers", "herself", "it", "it\x27s", "its", "itself",
   "they", "them", "their", "theirs", "themselves", "what", "which", "who",
   "whom", "this", "that", "that\x27ll", "these", "those", "am", "is",
   "are", "was", "were", "be", "been", "being", "have", "has", "had",
   "having", "do", "does", "did", "doing", "a", "an", "the", "and", "but",
   "if", "or", "because", "as", "until", "while", "of", "at", "by", "for",
   "with", "about", "against", "between", "into", "through", "during",
   "before", "after", "above", "below", "to", "from", "up", "down", "in",
   "out", "on", "off", "over", "under", "again", "further", "then", "once",
   "here", "there", "when", "where", "why", "how", "all", "any", "both",
   "each", "few", "more", "most", "other", "some", "such", "no", "nor",
   "not", "only", "own", "same", "so", "than", "too", "very", "s", "t",
   "can", "will", "just", "don", "don\x27t", "should", "should\x27ve",
   "now", "d", "ll", "m", "o", "re", "ve", "y", "ain", "aren",
   "aren\x27t", "couldn", "couldn\x27t", "didn", "didn\x27t", "doesn",
   "doesn\x27t", "hadn", "hadn\x27t", "hasn", "hasn\x27t", "haven",
   "haven\x27t", "isn", "isn\x27t", "ma", "mightn", "mightn\x27t",
   "mustn", "mustn\x27t", "needn", "needn\x27t", "shan", "shan\x27t",
   "shouldn", "shouldn\x27t", "wasn", "wasn\x27t", "weren", "weren\x27t",
   "won", "won\x27t", "wouldn", "wouldn\x27t"]

/-- The keywords surviving the filter pass of `extract_keywords_for_pexels`
(lines 54-58): alphabetic tokens longer than 2 characters that are either in
the important-modifiers allow-list or not stopwords. -/
def keyword_survivors (user_prompt : String) : List String :=
  (pySplit (pyLower user_prompt)).filter (fun w =>
    isAlphaStr w && 2 < w.length &&
      (important_modifiers.contains w || !nltk_stopwords.contains w))

/-- Embeds `extract_keywords_for_pexels` (lines 13-66), NLTK path: filter,
truncate to `max_keywords`, join with spaces, fall back to the original prompt
when the joined string is empty. -/
def extract_keywords_for_pexels (user_prompt : String) (max_keywords : ℕ) : String :=
  let keyword_string := joinSpace ((keyword_survivors user_prompt).take max_keywords)
  if keyword_string = "" then user_prompt else keyword_string

/-- The minimal built-in stopword list of the non-NLTK fallback path of
`extract_keywords_for_pexels` (lines 73-78). -/
def simple_stopwords : List String :=
  ["a", "an", "the", "and", "or", "but", "in", "on", "at", "to", "for",
   "of", "with", "by", "from", "as", "is", "was", "are", "were", "be",
   "been", "being", "have", "has", "had", "do", "does", "did", "will",
   "would", "could", "should", "may", "might", "can", "this", "that",
   "these", "those", "i", "you", "he", "she", "it", "we", "they", "my",
   "your", "his", "her", "its", "our", "their"]

/-- The punctuation characters stripped by the fallback path (line 82). -/
def punctChars : List Char := ['.', ',', '!', '?', ';', ':']

/-- The tokens surviving the filter of the fallback path (lines 81-83),
before punctuation stripping and truncation. -/
def simple_survivors (user_prompt : String) : List String :=
  (pySplit (pyLower user_prompt)).filter (fun w =>
    2 < w.length && !simple_stopwords.contains (pyLower w))

/-- Embeds `extract_keywords_for_pexels` (lines 68-88), simple fallback path
taken when NLTK is not importable. -/
def extract_keywords_simple (user_prompt : String) (max_keywords : ℕ) : String :=
  let keywords := ((simple_survivors user_prompt).map (pyStrip punctChars)).take max_keywords
  let keyword_string := joinSpace keywords
  if keyword_string = "" then user_prompt else keyword_string

/-! ## Prompt interpretation (`process_prompt_for_pexels`, lines 124-237) -/

/-- Portrait orientation cue words (line 150). -/
def orientation_portrait : List String :=
  ["tall", "vertical", "standing", "portrait", "upright"]

/-- Landscape orientation cue words (line 151). -/
def orientation_landscape : List String :=
  ["wide", "landscape", "horizontal", "panoramic", "widescreen"]

/-- Quality cue phrases (line 170). -/
def quality_keywords : List String :=
  ["hd", "high quality", "high-quality", "4k", "ultra hd", "high resolution",
   "high-resolution"]

/-- The Pexels API filter parameters extracted from a prompt
(`orientation`, `color`, `size`), each absent when no cue word matched. -/
structure PexelsParams where
  orientation : Option String
  color : Option String
  size : Option String
deriving DecidableEq, Repr

/-- Embeds the parameter-detection prefix of `process_prompt_for_pexels`
(lines 145-175): returns the params dict together with the accumulated
`parameter_words` set. The portrait scan runs first and, on a hit, the
landscape scan is skipped entirely (line 159); `find?` realizes the `break`
after the first matching word. -/
def interpret_parameters (text_lower : String) : PexelsParams × List String :=
  let pHit := orientation_portrait.find? (fun w => substrOf w text_lower)
  let lHit := if pHit.isSome then none
              else orientation_landscape.find? (fun w => substrOf w text_lower)
  let ori : Option String :=
    if pHit.isSome then some "portrait"
    else if lHit.isSome then some "landscape" else none
  let pw1 := (match pHit with | some w => [w] | none => []) ++
             (match lHit with | some w => [w] | none => [])
  let col : Option String :=
    if substrOf "black and white" text_lower || substrOf "monochrome" text_lower ||
       substrOf "grayscale" text_lower then some "black" else none
  let pw2 := pw1 ++ (if col.isSome then ["monochrome", "grayscale"] else [])
  let siz : Option String :=
    if quality_keywords.any (fun k => substrOf k text_lower) then some "large" else none
  let pw3 := pw2 ++ (if siz.isSome then ["hd", "4k", "ultra", "quality", "resolution"] else [])
  (⟨ori, col, siz⟩, pw3)

/-- The `visual_descriptors` allow-list of `process_prompt_for_pexels`
(lines 190-199). -/
def visual_descriptors : List String :=
  ["beautiful", "stunning", "peaceful", "majestic", "vibrant", "serene", "dramatic",
   "calm", "wild", "bright", "dark", "colorful", "golden", "crystal", "turquoise",
   "cozy", "modern", "futuristic", "vintage", "elegant", "minimalist", "rustic",
   "tropical", "ancient", "historic", "contemporary", "luxurious", "charming",
   "graceful", "brilliant", "misty", "foggy", "sunny", "cloudy", "starry",
   "clear", "sandy", "rocky", "green", "blue", "red", "white", "black",
   "purple", "pink", "orange", "yellow", "sunset", "sunrise", "twilight",
   "night", "day", "morning", "evening", "autumn", "winter", "spring", "summer"]

/-- The `basic_stopwords` fallback set inside the NLTK branch (line 218). -/
def basic_stopwords : List String :=
  ["a", "an", "the", "of", "in", "on", "at", "to", "for", "with", "is",
   "are", "was", "were"]

/-- Embeds `process_prompt_for_pexels` (lines 124-237) under the modelled
environment (NLTK importable, tokenization modelled as whitespace split):
parameter detection, keyword filtering with the visual-descriptor allow-list
and exclusion of consumed parameter words, 12-term cap, basic-stopword
fallback, and the final fall-back to the raw prompt when everything is empty. -/
def process_prompt_for_pexels (user_prompt : String) : String × PexelsParams :=
  let text_lower := pyLower user_prompt
  let pp := interpret_parameters text_lower
  let params := pp.1
  let parameter_words := pp.2
  let words := pySplit text_lower
  let keywords := words.filter (fun w =>
    isAlphaStr w && 2 < w.length &&
      (visual_descriptors.contains w ||
        (!nltk_stopwords.contains w && !parameter_words.contains w)))
  let sq1 := joinSpace (keywords.take 12)
  let sq2 := if sq1 = "" then
      joinSpace ((words.filter (fun w => isAlphaStr w && !basic_stopwords.contains w)).take 12)
    else sq1
  let sq3 := if pyStripWs sq2 = "" then user_prompt else sq2
  (sq3, params)

/-! ## Phrase mining (`_extract_key_phrases` lines 461-534,
`_extract_primary_subject` lines 536-562) -/

/-- The adjective alternatives of the adjective+noun regex (line 471). -/
def phrase_adjectives : List String :=
  ["beautiful", "stunning", "peaceful", "majestic", "vibrant", "serene", "dramatic",
   "calm", "wild", "busy", "quiet", "bright", "dark", "colorful", "golden",
   "crystal", "turquoise", "snow-covered", "sun-lit", "moonlit", "misty", "foggy",
   "cloudy", "starry", "aerial", "cinematic", "slow", "fast", "timelapse",
   "underwater", "natural", "urban", "rural", "modern", "ancient", "tropical",
   "arctic"]

/-- The curated compound phrases (lines 476-486). -/
def compound_phrases : List String :=
  ["sunset over ocean", "sunrise over mountain", "waves crashing", "waterfall flowing",
   "city lights", "night sky", "starry night", "full moon", "golden hour",
   "blue sky", "white clouds", "green forest", "snowy mountain", "sandy beach",
   "busy street", "quiet lake", "flowing river", "falling snow", "heavy rain",
   "lightning storm", "fire burning", "traffic moving", "people walking",
   "birds flying", "fish swimming", "flowers blooming", "trees swaying",
   "wind blowing", "sun setting", "moon rising", "clouds moving",
   "aerial view", "drone shot", "close up", "wide angle", "slow motion",
   "time lapse", "underwater scene", "mountain peak", "ocean wave"]

/-- The curated main subjects (lines 492-501). -/
def main_subjects : List String :=
  ["sunset", "sunrise", "ocean", "sea", "beach", "mountain", "forest",
   "city", "street", "building", "waterfall", "river", "lake", "desert",
   "garden", "park", "tree", "flower", "sky", "cloud", "wave", "snow",
   "rain", "storm", "fire", "water", "light", "night", "day", "road",
   "highway", "bridge", "tower", "landscape", "nature", "wildlife",
   "bird", "fish", "animal", "people", "crowd", "traffic", "drone",
   "aerial", "timelapse", "underwater", "volcano", "aurora", "rainbow",
   "canyon", "valley", "cliff", "island", "glacier"]

/-- The action words (lines 506-508). -/
def action_words : List String :=
  ["crashing", "flowing", "moving", "walking", "running", "flying",
   "setting", "rising", "shining", "glowing", "falling", "floating",
   "swaying", "blowing", "burning", "blooming", "swimming", "driving"]

/-- Non-overlapping scan realizing `re.findall` of the adjective+noun pattern
(line 471-474) on whitespace-tokenized text: an adjective followed by a word
yields a phrase and both tokens are consumed. -/
def adjNounScan : List String → List String
  | [] => []
  | [_] => []
  | w :: next :: rest =>
    if phrase_adjectives.contains w then (w ++ " " ++ next) :: adjNounScan rest
    else adjNounScan (next :: rest)

/-- The action-word neighbour phrases (lines 506-517). -/
def actionPairs (query_lower : String) (words : List String) : List String :=
  action_words.foldl (fun acc action =>
    if substrOf action query_lower then
      match words.findIdx? (fun w => w == action) with
      | some idx =>
        let acc1 := if 0 < idx then acc ++ [words[idx-1]! ++ " " ++ action] else acc
        if idx < words.length - 1 then acc1 ++ [action ++ " " ++ words[idx+1]!] else acc1
      | none => acc
    else acc) []

/-- First-seen-order deduplication of phrases, keeping phrases with at least
one token (lines 519-524). -/
def dedupPhrases : List String → List String → List String
  | _, [] => []
  | seen, p :: rest =>
    if !seen.contains p && 1 ≤ (pySplit p).length then
      p :: dedupPhrases (p :: seen) rest
    else dedupPhrases seen rest

/-- Embeds `PexelsVideoGenerator._extract_key_phrases` (lines 461-534).
Matching compound phrases are inserted at the front one by one (line 490), so
they end up in reverse list order ahead of the adjective+noun matches. -/
def extract_key_phrases (query : String) : List String :=
  let query_lower := pyLower query
  let words := pySplit query_lower
  let p1 := adjNounScan words
  let p2 := (compound_phrases.filter (fun ph =>
      (pySplit ph).all (fun w => substrOf w query_lower))).reverse ++ p1
  let p3 := p2 ++ (main_subjects.filter (fun s => substrOf s query_lower)).take 4
  let p4 := p3 ++ actionPairs query_lower words
  let uniq := dedupPhrases [] p4
  if uniq.isEmpty then
    let ws := words.filter (fun w => 3 < w.length)
    if 2 ≤ ws.length then [joinSpace (ws.take 2), joinSpace (ws.drop (ws.length - 2))]
    else ws.take 2
  else uniq

/-- The priority subjects of `_extract_primary_subject` (lines 542-550). -/
def priority_subjects : List String :=
  ["sunset", "sunrise", "waterfall", "volcano", "aurora", "rainbow",
   "ocean", "sea", "beach", "mountain", "forest", "desert", "canyon",
   "valley", "cliff", "river", "lake", "island", "glacier",
   "city", "street", "highway", "bridge", "building", "skyline", "downtown",
   "tree", "flower", "cloud", "wave", "snow", "rain", "storm", "fire",
   "water", "sky", "sun", "moon", "star",
   "nature", "landscape", "wildlife", "people", "traffic", "light"]

/-- Embeds `PexelsVideoGenerator._extract_primary_subject` (lines 536-562). -/
def extract_primary_subject (query : String) : Option String :=
  let query_lower := pyLower query
  match priority_subjects.find? (fun s => substrOf s query_lower) with
  | some s => some s
  | none =>
    match (pySplit query_lower).filter (fun w => 3 < w.length) with
    | w :: _ => some w
    | [] => none

/-! ## Relevance scoring (`_calculate_relevance_score`, lines 564-608) -/

/-- One extracted media candidate, the dict built by `_extract_video_info`
(lines 635-646). -/
structure VideoInfo where
  id : ℕ
  url : String
  image : String
  sd_video_link : String
  width : ℕ
  height : ℕ
  duration : ℤ
  file_type : String
  quality : String
  size : ℕ
deriving DecidableEq, Repr

/-- Duration component of the video relevance score (lines 573-580). -/
def duration_score (duration : ℤ) : ℚ :=
  if 5 ≤ duration ∧ duration ≤ 20 then 3
  else if 3 ≤ duration ∧ duration ≤ 30 then 2
  else if 0 < duration then 1 else 0

/-- Resolution component of the video relevance score (lines 582-590). -/
def resolution_score_video (width height : ℕ) : ℚ :=
  if 1920 ≤ width ∧ 1080 ≤ height then 3
  else if 1280 ≤ width ∧ 720 ≤ height then 2
  else if 640 ≤ width ∧ 480 ≤ height then 1 else 0

/-- Quality-tag component of the video relevance score (lines 592-595). -/
def quality_tag_score (quality : String) : ℚ :=
  if substrOf "hd" (pyLower quality) || substrOf "high" (pyLower quality) then 1.5 else 0

/-- File-size component of the video relevance score (lines 603-606). -/
def file_size_score (size : ℕ) : ℚ :=
  if 1000000 < size ∧ size < 50000000 then 0.5 else 0

/-- Embeds `PexelsVideoGenerator._calculate_relevance_score` (lines 564-608)
on extracted candidates. The tag-overlap component (lines 597-601) is
identically zero here because `_extract_video_info` never emits a `tags` key,
so `video.get("tags", [])` is always the empty list on this code path; the
`query` argument is kept to mirror the source signature. -/
def calculate_relevance_score (video : VideoInfo) (query : String) : ℚ :=
  duration_score video.duration +
  resolution_score_video video.width video.height +
  quality_tag_score video.quality +
  file_size_score video.size

/-! ## Photo relevance scoring
(`AdvancedAIGenerator._calculate_photo_relevance`, advanced_ai_generator.py
lines 593-630) -/

/-- One provider photo record, restricted to the fields read by
`_calculate_photo_relevance`; `avg_color = ""` models an absent or falsy
`avg_color`. -/
structure Photo where
  width : ℕ
  height : ℕ
  avg_color : String
deriving DecidableEq, Repr

/-- Resolution component of the photo relevance score (lines 603-608). -/
def resolution_score_photo (width height : ℕ) : ℚ :=
  if 3840 ≤ width ∧ 2160 ≤ height then 3
  else if 1920 ≤ width ∧ 1080 ≤ height then 2
  else if 1280 ≤ width ∧ 720 ≤ height then 1 else 0

/-- Aspect-ratio component of the photo relevance score (lines 610-616):
closeness of width/height to 16:9, with ratio 0 when height is 0. -/
def aspect_ratio_score (width height : ℕ) : ℚ :=
  let ratio : ℚ := if 0 < height then (width : ℚ) / (height : ℚ) else 0
  if |ratio - 16/9| < 1/10 then 2
  else if |ratio - 16/9| < 3/10 then 1 else 0

/-- Value of one hexadecimal digit, as accepted by Python `int(s, 16)`. -/
def hexDigit (c : Char) : Option ℕ :=
  if 48 ≤ c.toNat ∧ c.toNat ≤ 57 then some (c.toNat - 48)
  else if 97 ≤ c.toNat ∧ c.toNat ≤ 102 then some (c.toNat - 87)
  else if 65 ≤ c.toNat ∧ c.toNat ≤ 70 then some (c.toNat - 55)
  else none

/-- Value of a two-digit hexadecimal byte. -/
def hexByte (a b : Char) : Option ℕ :=
  (hexDigit a).bind (fun x => (hexDigit b).map (fun y => 16 * x + y))

/-- Parses `int(avg_color[1:3], 16)`, `int(avg_color[3:5], 16)`,
`int(avg_color[5:7], 16)` (lines 621, 625): the R, G, B bytes of a
`#rrggbb` string; `none` when a slice is too short or not hexadecimal,
where the source would raise `ValueError`. -/
def parseAvgColor (s : String) : Option (ℕ × ℕ × ℕ) :=
  match s.toList with
  | _ :: r1 :: r2 :: g1 :: g2 :: b1 :: b2 :: _ =>
    (hexByte r1 r2).bind (fun r =>
      (hexByte g1 g2).bind (fun g =>
        (hexByte b1 b2).map (fun b => (r, g, b))))
  | _ => none

/-- Mean luminance `(r + g + b) / 3` (lines 622, 626). -/
def luminance3 (r g b : ℕ) : ℚ := ((r : ℚ) + (g : ℚ) + (b : ℚ)) / 3

/-- Mood/color component of the photo relevance score (lines 618-628).
The dark/night branch is checked first; the bright/day/sunny branch is an
`elif`, so it is reached only when the query has no dark/night cue. `none`
models the `ValueError` the source raises on a malformed non-empty
`avg_color`. -/
def mood_bonus (avg_color : String) (query_lower : String) : Option ℚ :=
  if avg_color = "" then some 0
  else if substrOf "dark" query_lower || substrOf "night" query_lower then
    (parseAvgColor avg_color).map (fun rgb =>
      if luminance3 rgb.1 rgb.2.1 rgb.2.2 < 100 then 1.5 else 0)
  else if substrOf "bright" query_lower || substrOf "day" query_lower ||
          substrOf "sunny" query_lower then
    (parseAvgColor avg_color).map (fun rgb =>
      if 150 < luminance3 rgb.1 rgb.2.1 rgb.2.2 then 1.5 else 0)
  else some 0

/-- Embeds `AdvancedAIGenerator._calculate_photo_relevance` (lines 593-630):
resolution tier, aspect-ratio closeness, and the mood/color bonus, summed. -/
def calculate_photo_relevance (photo : Photo) (query : String) : Option ℚ :=
  (mood_bonus photo.avg_color (pyLower query)).map (fun m =>
    resolution_score_photo photo.width photo.height +
    aspect_ratio_score photo.width photo.height + m)

/-! ## Provider records and extraction (`_extract_video_info` lines 610-650,
`get_fast_video_link` lines 94-122) -/

/-- One entry of a provider `video_files` list. String truthiness: `link = ""`
and `quality = none` or `some ""` model absent/falsy values; the `Option`
fields carry the `dict.get` defaults applied in `_extract_video_info`. -/
structure RawVideoFile where
  quality : Option String
  link : String
  width : Option ℕ
  height : Option ℕ
  file_type : Option String
  file_size : Option ℕ
deriving DecidableEq, Repr

/-- One raw provider video record, restricted to the fields the search path
reads. `image = ""` models an absent thumbnail. -/
structure RawVideo where
  id : ℕ
  duration : ℤ
  video_files : List RawVideoFile
  image : String
  video_pictures : List String
deriving DecidableEq, Repr

/-- Embeds `get_fast_video_link` (lines 94-122): first file whose quality is
the (truthy) string `"sd"` case-insensitively and which has a truthy link;
otherwise the last file if its link is truthy; otherwise `None`. -/
def get_fast_video_link (video_files : List RawVideoFile) : Option String :=
  match video_files with
  | [] => none
  | _ =>
    match video_files.find? (fun f =>
        (pyLower (f.quality.getD "")) == "sd" && f.link != "") with
    | some f => some f.link
    | none =>
      match video_files.getLast? with
      | some last => if last.link != "" then some last.link else none
      | none => none

/-- Embeds `PexelsVideoGenerator._extract_video_info` (lines 610-650):
drops records shorter than `min_duration`, records without files or without a
usable link; otherwise builds the candidate dict from the selected file
(the file whose link equals the fast link, else the first file). -/
def extract_video_info (min_duration : ℤ) (video : RawVideo) : Option VideoInfo :=
  if video.duration < min_duration then none
  else
    match video.video_files with
    | [] => none
    | f0 :: fs =>
      match get_fast_video_link (f0 :: fs) with
      | none => none
      | some fast_link =>
        let sel := ((f0 :: fs).find? (fun f => f.link == fast_link)).getD f0
        let image_url := if video.image != "" then video.image
                         else (video.video_pictures.headD "")
        some { id := video.id, url := fast_link, image := image_url,
               sd_video_link := fast_link,
               width := sel.width.getD 1280, height := sel.height.getD 720,
               duration := video.duration,
               file_type := sel.file_type.getD "video/mp4",
               quality := sel.quality.getD "sd",
               size := sel.file_size.getD 0 }

/-! ## The search provider boundary (`_search_with_query`, lines 422-459) -/

/-- The request parameter dict sent to the provider (lines 434-442): the
defaults, overridden by any extracted Pexels params. -/
structure ReqParams where
  query : String
  per_page : ℕ
  orientation : String
  size : String
  color : Option String
deriving DecidableEq, Repr

/-- Builds the request dict: base defaults (lines 434-439) updated with the
extracted params when present (lines 441-442). -/
def build_req_params (search_query : String) (max_results : ℕ)
    (extra : Option PexelsParams) : ReqParams :=
  let base : ReqParams :=
    { query := search_query, per_page := min max_results 80,
      orientation := "landscape", size := "medium", color := none }
  match extra with
  | none => base
  | some e =>
    { base with
      orientation := e.orientation.getD base.orientation,
      size := e.size.getD base.size,
      color := e.color }

/-- The external search provider as a deterministic oracle: a response per
request dict, or a raised transport/HTTP error. -/
def SearchProvider : Type := ReqParams → Except String (List RawVideo)

/-- Embeds `PexelsVideoGenerator._search_with_query` (lines 422-459): any
provider failure is caught locally and yields zero results; a successful
response is filtered through `_extract_video_info`. -/
def search_with_query (provider : SearchProvider) (search_query : String)
    (max_results : ℕ) (min_duration : ℤ) (extra : Option PexelsParams) :
    List VideoInfo :=
  match provider (build_req_params search_query max_results extra) with
  | Except.error _ => []
  | Except.ok vids => vids.filterMap (extract_video_info min_duration)

/-- A provider failure replaced by an empty successful response; used to state
that `search_videos` treats a failed strategy exactly as one that returned
zero results. -/
def recover_provider (provider : SearchProvider) : SearchProvider :=
  fun p => match provider p with
  | Except.ok vids => Except.ok vids
  | Except.error _ => Except.ok []

/-! ## Learner recommendations consulted by the search
(`smart_learner.py` lines 82-206) -/

/-- The scene-type keyword table of `VideoGenerationLearner._identify_scene_type`
(lines 84-93), in dict insertion order. -/
def scene_type_table : List (String × List String) :=
  [("nature_landscape", ["mountain", "forest", "valley", "canyon", "meadow", "hill", "landscape"]),
   ("water_scene", ["ocean", "sea", "lake", "river", "waterfall", "beach", "shore", "waves"]),
   ("urban", ["city", "street", "building", "downtown", "urban", "skyline", "traffic"]),
   ("sky", ["sky", "cloud", "sunset", "sunrise", "stars", "moon", "aurora"]),
   ("weather", ["storm", "rain", "snow", "fog", "lightning", "thunder"]),
   ("wildlife", ["animal", "bird", "fish", "wildlife", "deer", "whale", "dolphin"]),
   ("aerial", ["aerial", "drone", "birds-eye", "overhead", "flying"]),
   ("timelapse", ["timelapse", "time-lapse", "fast", "moving"])]

/-- Embeds `VideoGenerationLearner._identify_scene_type` (lines 82-99):
first category whose keyword list has a substring hit, else `"general"`. -/
def identify_scene_type (prompt : String) : String :=
  match scene_type_table.find? (fun st => st.2.any (fun kw => substrOf kw prompt)) with
  | some st => st.1
  | none => "general"

/-- Embeds the `min_duration` recommendation of
`VideoGenerationLearner._get_recommendations` (lines 185-206): base 5,
overridden per scene type. -/
def recommended_min_duration (scene_type : String) : ℤ :=
  if scene_type = "timelapse" then 3
  else if scene_type = "nature_landscape" ∨ scene_type = "water_scene" then 8
  else if scene_type = "urban" then 5
  else 5

/-- The effective minimum duration used by every strategy of `search_videos`
(lines 292-307): when a learner is attached, the caller value raised to the
learner recommendation for the prompt (`analyze_prompt` lowercases the
prompt before scene-type detection). -/
def effective_min_duration (has_learner : Bool) (query : String)
    (min_duration : ℤ) : ℤ :=
  if has_learner then
    max min_duration (recommended_min_duration (identify_scene_type (pyLower query)))
  else min_duration

/-! ## Search orchestration (`search_videos`, lines 275-388) -/

/-- The strategy-2 loop (lines 318-326): query each phrase for `count * 2`
results, accumulate, and break once `count * 3` results are accumulated. -/
def strat2_loop (provider : SearchProvider) (count : ℕ) (min_duration : ℤ) :
    List String → List VideoInfo → List VideoInfo
  | [], acc => acc
  | phrase :: rest, acc =>
    let acc2 := acc ++ search_with_query provider phrase (count * 2) min_duration none
    if count * 3 ≤ acc2.length then acc2
    else strat2_loop provider count min_duration rest acc2

/-- The four widening strategies of `search_videos` (lines 309-342):
primary query with params over-fetching `count * 3`, then — each only while
still short of `count` — the first three mined phrases, the primary subject,
and the first three tokens of the primary query. -/
def gather_videos (provider : SearchProvider) (query enhanced_query : String)
    (params : PexelsParams) (count : ℕ) (min_duration : ℤ) : List VideoInfo :=
  let all1 := search_with_query provider enhanced_query (count * 3) min_duration (some params)
  let all2 := if all1.length < count then
      strat2_loop provider count min_duration ((extract_key_phrases query).take 3) all1
    else all1
  let all3 := if all2.length < count then
      match extract_primary_subject query with
      | some primary => all2 ++ search_with_query provider primary (count * 2) min_duration none
      | none => all2
    else all2
  let all4 := if all3.length < count then
      all3 ++ search_with_query provider
        (joinSpace ((pySplit enhanced_query).take 3)) (count * 2) min_duration none
    else all3
  all4

/-- Id-deduplication with an explicit seen set (lines 344-349): the first
occurrence of each id wins. -/
def dedup_by_id_aux : List ℕ → List VideoInfo → List VideoInfo
  | _, [] => []
  | seen, v :: rest =>
    if v.id ∈ seen then dedup_by_id_aux seen rest
    else v :: dedup_by_id_aux (v.id :: seen) rest

/-- The deduplication pass of `search_videos`. -/
def dedup_by_id (l : List VideoInfo) : List VideoInfo := dedup_by_id_aux [] l

/-- The descending sort key of `search_videos` (lines 351-355):
relevance score, then pixel area, then duration. -/
def sort_key (query : String) (v : VideoInfo) : ℚ × ℚ × ℚ :=
  (calculate_relevance_score v query, ((v.width * v.height : ℕ) : ℚ), (v.duration : ℚ))

/-- Strict lexicographic greater-than on sort keys; ties keep arrival order in
the stable sort, as in Python. -/
def key_gt (query : String) (a b : VideoInfo) : Bool :=
  let ka := sort_key query a
  let kb := sort_key query b
  decide (kb.1 < ka.1 ∨ (kb.1 = ka.1 ∧ (kb.2.1 < ka.2.1 ∨ (kb.2.1 = ka.2.1 ∧ kb.2.2 < ka.2.2))))

/-- The deduplicate / sort-descending / truncate tail of `search_videos`
(lines 344-357). -/
def select_top (enhanced_query : String) (count : ℕ) (all_videos : List VideoInfo) :
    List VideoInfo :=
  (stableSortDesc (key_gt enhanced_query) (dedup_by_id all_videos)).take count

/-- Embeds `PexelsVideoGenerator.search_videos` (lines 275-388) under the
modelled environment (API key present): prompt interpretation, learner
duration adjustment, the four strategies, deduplication, scoring, sorting and
truncation. The learner recording on lines 359-369 is a store side effect
modelled separately with the trainer operations; it does not touch the
returned list. -/
def search_videos (provider : SearchProvider) (has_learner : Bool)
    (query : String) (count : ℕ) (min_duration : ℤ) : List VideoInfo :=
  let enhanced_query := (process_prompt_for_pexels query).1
  let params := (process_prompt_for_pexels query).2
  let effMin := effective_min_duration has_learner query min_duration
  select_top enhanced_query count
    (gather_videos provider query enhanced_query params count effMin)

/-! ## The intelligent trainer (`intelligent_trainer.py`) -/

/-- The subject list of `IntelligentTrainer._extract_key_elements`
(lines 161-166). -/
def trainer_subjects : List String :=
  ["ocean", "sea", "beach", "mountain", "forest", "city", "street",
   "waterfall", "sunset", "sunrise", "sky", "cloud", "tree", "flower",
   "building", "road", "bridge", "lake", "river", "desert", "snow",
   "rain", "storm", "fire", "water", "wave", "bird", "animal"]

/-- The time-of-day list (lines 168-169). -/
def trainer_times : List String :=
  ["morning", "afternoon", "evening", "night", "dawn", "dusk",
   "sunset", "sunrise", "golden hour", "blue hour"]

/-- The mood list (lines 171-172). -/
def trainer_moods : List String :=
  ["peaceful", "calm", "serene", "dramatic", "energetic", "vibrant",
   "tranquil", "majestic", "beautiful", "stunning", "breathtaking"]

/-- The color list (lines 174-175). -/
def trainer_colors : List String :=
  ["blue", "turquoise", "golden", "red", "green", "crystal clear",
   "bright", "dark", "colorful", "white", "black"]

/-- The action list (lines 177-178). -/
def trainer_actions : List String :=
  ["crashing", "flowing", "moving", "walking", "running", "flying",
   "cascading", "swaying", "dancing", "shining", "glowing"]

/-- The key visual elements extracted from a prompt
(`_extract_key_elements`, lines 146-200). `settings` stays empty in the
source (nothing is ever appended to it). -/
structure KeyElements where
  subjects : List String
  settings : List String
  time_of_day : List String
  mood : List String
  colors : List String
  actions : List String
deriving DecidableEq, Repr

/-- Embeds `IntelligentTrainer._extract_key_elements` (lines 146-200). -/
def extract_key_elements (prompt : String) : KeyElements :=
  let pl := pyLower prompt
  { subjects := trainer_subjects.filter (fun s => substrOf s pl),
    settings := [],
    time_of_day := trainer_times.filter (fun s => substrOf s pl),
    mood := trainer_moods.filter (fun s => substrOf s pl),
    colors := trainer_colors.filter (fun s => substrOf s pl),
    actions := trainer_actions.filter (fun s => substrOf s pl) }

/-- Embeds `IntelligentTrainer._get_pattern_key` (lines 202-217): the first
detected subject, time-of-day and mood joined with underscores, else
`"general"`. -/
def get_pattern_key (prompt : String) : String :=
  let e := extract_key_elements prompt
  let parts := (match e.subjects with | s :: _ => [s] | [] => []) ++
               (match e.time_of_day with | t :: _ => [t] | [] => []) ++
               (match e.mood with | m :: _ => [m] | [] => [])
  if parts.isEmpty then "general" else String.intercalate "_" parts

/-- Summary of one successful video (lines 113-117). -/
structure VideoChar where
  resolution : String
  duration : ℤ
  quality : String
deriving DecidableEq, Repr

/-- One entry of `successful_patterns` (lines 95-101). -/
structure PatternData where
  count : ℕ
  examples : List String
  key_elements : KeyElements
  search_queries : List String
  video_characteristics : List VideoChar
deriving DecidableEq, Repr

/-- The generated content handed to the trainer on feedback: the search query
used (when any) and the selected candidates. -/
structure GeneratedContent where
  search_query : Option String
  videos : List VideoInfo
deriving DecidableEq, Repr

/-- The `successful_patterns` store: a JSON object, modelled as an
insertion-ordered association list as in a Python dict. -/
def TrainerPatterns : Type := List (String × PatternData)

/-- Python dict upsert: mutate the entry under the key if present, else append
a fresh entry initialized from `init` at the end. -/
def upsert_pattern (key : String) (f : PatternData → PatternData)
    (init : PatternData) : TrainerPatterns → TrainerPatterns
  | [] => [(key, f init)]
  | (k, d) :: rest =>
    if k == key then (k, f d) :: rest
    else (k, d) :: upsert_pattern key f init rest

/-- Embeds `IntelligentTrainer._learn_from_success` (lines 87-119): create the
pattern on first sight, increment its count, append the prompt to the
examples, append an unseen search query, and append the summaries of the
generated videos. -/
def learn_from_success (patterns : TrainerPatterns) (prompt : String)
    (content : GeneratedContent) : TrainerPatterns :=
  let key := get_pattern_key prompt
  let init : PatternData :=
    { count := 0, examples := [], key_elements := extract_key_elements prompt,
      search_queries := [], video_characteristics := [] }
  upsert_pattern key (fun d =>
    let d1 := { d with count := d.count + 1, examples := d.examples ++ [prompt] }
    let d2 := match content.search_query with
      | some q => if d1.search_queries.contains q then d1
                  else { d1 with search_queries := d1.search_queries ++ [q] }
      | none => d1
    { d2 with video_characteristics := d2.video_characteristics ++
        content.videos.map (fun v =>
          { resolution := s!"{v.width}x{v.height}", duration := v.duration,
            quality := v.quality }) }) init patterns

/-- One failed-query record of `query_optimizations` (timestamp omitted). -/
structure FailedQuery where
  query : String
  reason : String
deriving DecidableEq, Repr

/-- One entry of `query_optimizations` (lines 129-133). -/
structure QueryOptData where
  failed_queries : List FailedQuery
  suggestions : List String
deriving DecidableEq, Repr

/-- Embeds `IntelligentTrainer._generate_improvement_suggestions`
(lines 274-293). -/
def generate_improvement_suggestions (feedback : String) : List String :=
  let fl := pyLower feedback
  (if substrOf "not matching" fl || substrOf "wrong" fl then
    ["Try adding more specific descriptive words",
     "Include time of day (morning, sunset, night)",
     "Add mood words (peaceful, dramatic, energetic)"] else []) ++
  (if substrOf "quality" fl || substrOf "low quality" fl then
    ["Specify 4K or cinematic in prompt",
     "Add high quality or professional"] else []) ++
  (if substrOf "short" fl || substrOf "duration" fl then
    ["Specify desired duration in prompt",
     "Request slow motion or time-lapse if appropriate"] else [])

/-- Embeds `IntelligentTrainer._learn_from_failure` (lines 121-144); it
touches only `query_optimizations`, never `successful_patterns`. -/
def learn_from_failure (qopt : List (String × QueryOptData)) (prompt : String)
    (content : GeneratedContent) (comments : String) :
    List (String × QueryOptData) :=
  let key := get_pattern_key prompt
  match content.search_query with
  | none => qopt
  | some q =>
    let init : QueryOptData := { failed_queries := [], suggestions := [] }
    let rec upd : List (String × QueryOptData) → List (String × QueryOptData)
      | [] => [(key,
          { failed_queries := init.failed_queries ++ [{ query := q, reason := comments }],
            suggestions := init.suggestions ++ generate_improvement_suggestions comments })]
      | (k, d) :: rest =>
        if k == key then
          (k, { failed_queries := d.failed_queries ++ [{ query := q, reason := comments }],
                suggestions := d.suggestions ++ generate_improvement_suggestions comments }) :: rest
        else (k, d) :: upd rest
    upd qopt

/-- One recorded feedback entry (timestamp omitted, `learned` flag constant). -/
structure FeedbackEntry where
  prompt : String
  content : GeneratedContent
  rating : ℤ
  comments : String
deriving DecidableEq, Repr

/-- The whole trainer state touched by feedback recording. -/
structure TrainerState where
  feedback_history : List FeedbackEntry
  successful_patterns : TrainerPatterns
  query_optimizations : List (String × QueryOptData)

/-- The empty starting state (`_load_json` defaults, lines 32-35). -/
def initial_trainer_state : TrainerState :=
  { feedback_history := [], successful_patterns := [], query_optimizations := [] }

/-- Embeds `IntelligentTrainer.record_user_feedback` (lines 57-85): append to
the history, then learn from success when the rating is at least 4, from
failure when it is at most 2. -/
def record_user_feedback (s : TrainerState) (prompt : String)
    (content : GeneratedContent) (rating : ℤ) (comments : String) : TrainerState :=
  let s1 := { s with feedback_history := s.feedback_history ++
      [{ prompt := prompt, content := content, rating := rating, comments := comments }] }
  if 4 ≤ rating then
    { s1 with successful_patterns := learn_from_success s1.successful_patterns prompt content }
  else if rating ≤ 2 then
    { s1 with query_optimizations :=
        learn_from_failure s1.query_optimizations prompt content comments }
  else s1

/-- The count stored for a pattern key, 0 when the key is absent. -/
def count_at (patterns : TrainerPatterns) (key : String) : ℕ :=
  match List.lookup key patterns with
  | some d => d.count
  | none => 0

/-- The recommended strategy record of
`IntelligentTrainer.get_optimal_search_strategy` (lines 251-257). -/
structure SearchStrategy where
  use_exact_query : Bool
  min_duration : ℤ
  preferred_resolution : String
  max_results : ℕ
  confidence : ℚ
deriving DecidableEq, Repr

/-- Python `int()` truncation toward zero on a rational. -/
def pyTruncInt (q : ℚ) : ℤ := q.num / (q.den : ℤ)

/-- Embeds `IntelligentTrainer.get_optimal_search_strategy` (lines 243-272):
base confidence 0.5; when the prompt pattern has at least 5 recorded
successes, confidence 0.9 and a minimum duration derived from half the
average recorded duration, floored at 3. -/
def get_optimal_search_strategy (patterns : TrainerPatterns) (prompt : String) :
    SearchStrategy :=
  let key := get_pattern_key prompt
  let base : SearchStrategy :=
    { use_exact_query := true, min_duration := 3, preferred_resolution := "UHD",
      max_results := 6, confidence := 1/2 }
  match List.lookup key patterns with
  | none => base
  | some pat =>
    if 5 ≤ pat.count then
      let s1 := { base with confidence := 9/10 }
      if pat.video_characteristics.isEmpty then s1
      else
        let durations := pat.video_characteristics.map (fun v => v.duration)
        let avg : ℚ := ((durations.sum : ℚ)) / ((durations.length : ℚ))
        { s1 with min_duration := max 3 (pyTruncInt (avg * (1/2))) }
    else base

/-! ## Concrete inputs used by witnesses and counterexamples -/

/-- A provider video file of SD quality with a usable link. -/
def wFile : RawVideoFile :=
  { quality := some "sd", link := "http://cdn/v1.mp4", width := some 1920,
    height := some 1080, file_type := some "video/mp4", file_size := some 2000000 }

/-- A concrete raw provider record. -/
def wRaw : RawVideo :=
  { id := 101, duration := 10, video_files := [wFile],
    image := "http://cdn/v1.jpg", video_pictures := [] }

/-- A provider oracle answering every request with the single record. -/
def wProvider : SearchProvider := fun _ => Except.ok [wRaw]

/-- The candidate `extract_video_info` builds from `wRaw`. -/
def wInfo : VideoInfo :=
  { id := 101, url := "http://cdn/v1.mp4", image := "http://cdn/v1.jpg",
    sd_video_link := "http://cdn/v1.mp4", width := 1920, height := 1080,
    duration := 10, file_type := "video/mp4", quality := "sd", size := 2000000 }

/-- A provider oracle that always fails, and one that returns an equal
response written differently (for the determinism witness). -/
def wProviderA : SearchProvider := fun _ => Except.ok []

/-- Extensionally equal variant of `wProviderA`. -/
def wProviderB : SearchProvider := fun _ => Except.ok ([] ++ [])

/-- A photo whose average color is pure white. -/
def wPhotoWhite : Photo := { width := 0, height := 0, avg_color := "#ffffff" }

/-- A photo whose average color is pure black. -/
def wPhotoBlack : Photo := { width := 0, height := 0, avg_color := "#000000" }

/-- One successful feedback event for the learning witness. -/
def wEvent : String × GeneratedContent × ℤ :=
  ("ocean", { search_query := some "ocean", videos := [] }, 5)

/-- A candidate at exactly Full HD with all other fields neutral. -/
def wFullHD : VideoInfo :=
  { id := 7, url := "u", image := "", sd_video_link := "u", width := 1920,
    height := 1080, duration := 0, file_type := "", quality := "", size := 0 }

/-- The resolution tier stated by the spec, written from its words
(4K tier 3840×2160, Full-HD tier 1920×1080, HD tier 1280×720, else 0), to be
compared with the components translated from the source. -/
def spec_resolution_tier (width height : ℕ) : ℚ :=
  if 3840 ≤ width ∧ 2160 ≤ height then 3
  else if 1920 ≤ width ∧ 1080 ≤ height then 2
  else if 1280 ≤ width ∧ 720 ≤ height then 1 else 0

/-- A concrete pattern store holding five recorded successes for the key
`"ocean"`. -/
def wPatterns : TrainerPatterns :=
  [("ocean",
    { count := 5, examples := ["ocean", "ocean", "ocean", "ocean", "ocean"],
      key_elements := extract_key_elements "ocean", search_queries := ["ocean"],
      video_characteristics := [] })]

/-! ## Helper lemmas: the stable sort permutes, deduplication is sound -/

theorem insertDesc_perm (gt : α → α → Bool) (a : α) (l : List α) :
    (insertDesc gt a l).Perm (a :: l) := by
  induction l with
  | nil => exact List.Perm.refl _
  | cons b bs ih =>
    simp only [insertDesc]
    split
    · exact List.Perm.refl _
    · exact (ih.cons b).trans (List.Perm.swap a b bs)

theorem foldl_insertDesc_perm (gt : α → α → Bool) :
    ∀ (l acc : List α), (l.foldl (fun acc a => insertDesc gt a acc) acc).Perm (acc ++ l)
  | [], acc => by simp
  | a :: l, acc => by
    simp only [List.foldl_cons]
    refine (foldl_insertDesc_perm gt l (insertDesc gt a acc)).trans ?_
    refine (((insertDesc_perm gt a acc).append_right l).trans ?_)
    exact List.perm_middle.symm

theorem stableSortDesc_perm (gt : α → α → Bool) (l : List α) :
    (stableSortDesc gt l).Perm l := by
  simpa using foldl_insertDesc_perm gt l []

theorem mem_dedup_by_id_aux {seen : List ℕ} {l : List VideoInfo} {v : VideoInfo}
    (h : v ∈ dedup_by_id_aux seen l) : v ∈ l := by
  induction l generalizing seen with
  | nil => simpa [dedup_by_id_aux] using h
  | cons w rest ih =>
    simp only [dedup_by_id_aux] at h
    split at h
    · exact List.mem_cons_of_mem _ (ih h)
    · rcases List.mem_cons.mp h with rfl | h2
      · exact List.mem_cons_self _ _
      · exact List.mem_cons_of_mem _ (ih h2)

theorem dedup_by_id_aux_sound (l : List VideoInfo) :
    ∀ seen : List ℕ,
      (∀ v ∈ dedup_by_id_aux seen l, v.id ∉ seen) ∧
      List.Pairwise (fun a b : VideoInfo => a.id ≠ b.id) (dedup_by_id_aux seen l) := by
  induction l with
  | nil => intro seen; simp [dedup_by_id_aux]
  | cons w rest ih =>
    intro seen
    simp only [dedup_by_id_aux]
    split
    · exact ih seen
    · next hw =>
      constructor
      · intro v hv
        rcases List.mem_cons.mp hv with rfl | h2
        · exact hw
        · intro hseen
          exact (ih (w.id :: seen)).1 v h2 (List.mem_cons_of_mem _ hseen)
      · refine List.pairwise_cons.mpr ⟨?_, (ih (w.id :: seen)).2⟩
        intro v hv heq
        exact (ih (w.id :: seen)).1 v hv (heq ▸ List.mem_cons_self _ _)

theorem dedup_by_id_pairwise (l : List VideoInfo) :
    List.Pairwise (fun a b : VideoInfo => a.id ≠ b.id) (dedup_by_id l) :=
  (dedup_by_id_aux_sound l []).2

theorem select_top_pairwise (q : String) (c : ℕ) (l : List VideoInfo) :
    List.Pairwise (fun a b : VideoInfo => a.id ≠ b.id) (select_top q c l) := by
  unfold select_top
  refine List.Pairwise.sublist (List.take_sublist _ _) ?_
  exact ((stableSortDesc_perm (key_gt q) (dedup_by_id l)).pairwise_iff
    (fun h => (h ·.symm))).mpr (dedup_by_id_pairwise l)

theorem mem_select_top {q : String} {c : ℕ} {l : List VideoInfo} {v : VideoInfo}
    (h : v ∈ select_top q c l) : v ∈ l := by
  unfold select_top at h
  exact mem_dedup_by_id_aux
    (((stableSortDesc_perm (key_gt q) (dedup_by_id l)).mem_iff).mp
      (List.take_subset _ _ h))

/-- C1: in every invocation of `search_videos`, for all provider responses, no
two elements of the returned list share the same provider-assigned id —
results accumulated across all strategies are deduplicated by id (first
occurrence wins) before scoring, sorting and truncation, and sorting and
truncation preserve the uniqueness. -/
theorem C1_search_videos_dedup_invariant (provider : SearchProvider)
    (has_learner : Bool) (query : String) (count : ℕ) (min_duration : ℤ) :
    List.Pairwise (fun a b : VideoInfo => a.id ≠ b.id)
      (search_videos provider has_learner query count min_duration) :=
  select_top_pairwise _ _ _

/-! ## C2: the resolution tiers of the relevance score -/

/-- C2 counterexample: the claimed tiers (≥3840×2160 → +3, ≥1920×1080 → +2,
≥1280×720 → +1, else 0) fail on the cited video scorer at exactly 1920×1080:
the code awards +3.0 there (and the whole relevance score of a Full-HD
candidate with neutral other fields is 3, not the claimed 2). -/
theorem C2_resolution_tier_counterexample :
    resolution_score_video 1920 1080 = 3 ∧
    spec_resolution_tier 1920 1080 = 2 ∧
    calculate_relevance_score wFullHD "city" = 3 ∧
    resolution_score_video 1920 1080 ≠ spec_resolution_tier 1920 1080 := by
  have h1 : resolution_score_video 1920 1080 = 3 := by
    unfold resolution_score_video
    rw [if_pos (by norm_num : (1920:ℕ) ≤ 1920 ∧ (1080:ℕ) ≤ 1080)]
  have h2 : spec_resolution_tier 1920 1080 = 2 := by
    unfold spec_resolution_tier
    rw [if_neg (by norm_num : ¬((3840:ℕ) ≤ 1920 ∧ (2160:ℕ) ≤ 1080)),
        if_pos (by norm_num : (1920:ℕ) ≤ 1920 ∧ (1080:ℕ) ≤ 1080)]
  refine ⟨h1, h2, ?_, by rw [h1, h2]; norm_num⟩
  unfold calculate_relevance_score wFullHD
  rw [show quality_tag_score "" = 0 from by
        unfold quality_tag_score
        rw [if_neg (by decide :
          ¬((substrOf "hd" (pyLower "") || substrOf "high" (pyLower "")) = true))]]
  simp only [h1]
  norm_num [duration_score, file_size_score]

/-- C2 amended: the cited video scorer resolution component awards +3.0 for
width ≥ 1920 and height ≥ 1080, +2.0 for ≥ 1280×720, +1.0 for ≥ 640×480 and
+0 otherwise; the tiers stated in the spec (4K/Full-HD/HD) are exactly the
resolution component of the photo relevance scorer instead. -/
theorem C2_resolution_tier_amended (w h : ℕ) :
    (1920 ≤ w ∧ 1080 ≤ h → resolution_score_video w h = 3) ∧
    (1280 ≤ w ∧ 720 ≤ h ∧ ¬(1920 ≤ w ∧ 1080 ≤ h) → resolution_score_video w h = 2) ∧
    (640 ≤ w ∧ 480 ≤ h ∧ ¬(1280 ≤ w ∧ 720 ≤ h) → resolution_score_video w h = 1) ∧
    (¬(640 ≤ w ∧ 480 ≤ h) → resolution_score_video w h = 0) ∧
    resolution_score_photo w h = spec_resolution_tier w h := by
  refine ⟨?_, ?_, ?_, ?_, rfl⟩
  · intro hc
    unfold resolution_score_video
    rw [if_pos hc]
  · rintro ⟨hw, hh, hn⟩
    unfold resolution_score_video
    rw [if_neg hn, if_pos ⟨hw, hh⟩]
  · rintro ⟨hw, hh, hn⟩
    unfold resolution_score_video
    rw [if_neg (fun hc => hn ⟨by omega, by omega⟩), if_neg hn, if_pos ⟨hw, hh⟩]
  · intro hn
    unfold resolution_score_video
    rw [if_neg (fun hc => hn ⟨by omega, by omega⟩),
        if_neg (fun hc => hn ⟨by omega, by omega⟩), if_neg hn]

/-- Witness for C2 amended at 1920×1080, 1280×720 and 100×100. -/
theorem C2_resolution_tier_amended_witness :
    resolution_score_video 1920 1080 = 3 ∧ resolution_score_video 1280 720 = 2 ∧
    resolution_score_video 100 100 = 0 ∧
    resolution_score_photo 1920 1080 = spec_resolution_tier 1920 1080 :=
  ⟨(C2_resolution_tier_amended 1920 1080).1 (by norm_num),
   (C2_resolution_tier_amended 1280 720).2.1 (by norm_num),
   (C2_resolution_tier_amended 100 100).2.2.2.1 (by norm_num),
   (C2_resolution_tier_amended 1920 1080).2.2.2.2⟩

/-! ## C3: the mood/color luminance bonus -/

/-- C3 counterexample: the mood bonus lives in the photo scorer, not the cited
video scorer, and its bright branch is skipped whenever a dark/night cue is
present: for the white-average candidate and the query "dark day" (which
contains "day", luminance 255 > 150) the photo score is 0, not the claimed
1.5-boosted value; the video relevance score reads no avg_color at all
(`VideoInfo` carries none, and `calculate_relevance_score` on a neutral
Full-HD candidate is unchanged whatever the query says about darkness). -/
theorem C3_mood_bonus_counterexample :
    substrOf "day" (pyLower "dark day") = true ∧
    parseAvgColor "#ffffff" = some (255, 255, 255) ∧
    luminance3 255 255 255 = 255 ∧
    calculate_photo_relevance wPhotoWhite "dark day" = some 0 ∧
    calculate_photo_relevance wPhotoWhite "dark day" ≠ some (3/2) ∧
    calculate_relevance_score wFullHD "dark night" = calculate_relevance_score wFullHD "bright day" := by
  have h0 : |(16:ℚ)/9| = 16/9 := abs_of_nonneg (by norm_num)
  have hmood : mood_bonus "#ffffff" "dark day" = some 0 := by
    unfold mood_bonus
    rw [if_neg (by decide : ¬("#ffffff" = "")),
        if_pos (by decide : (substrOf "dark" "dark day" || substrOf "night" "dark day") = true),
        show parseAvgColor "#ffffff" = some (255, 255, 255) from by decide]
    simp only [Option.map_some']
    norm_num [luminance3]
  have hscore : calculate_photo_relevance wPhotoWhite "dark day" = some 0 := by
    unfold calculate_photo_relevance wPhotoWhite
    rw [show pyLower "dark day" = "dark day" from by decide, hmood]
    simp only [Option.map_some', aspect_ratio_score, resolution_score_photo]
    norm_num [h0]
  refine ⟨by decide, by decide, by norm_num [luminance3], hscore, ?_, rfl⟩
  rw [hscore]
  intro hcontra
  have := Option.some.inj hcontra
  norm_num at this

/-- C3 amended: in the photo relevance scorer (the only scorer reading
avg_color), a candidate with a parseable non-empty avg_color gets the +1.5
mood bonus when the query has a dark/night cue and luminance < 100, and when
the query has a bright/day/sunny cue with luminance > 150 — the latter only
if no dark/night cue is present, since the dark branch takes precedence. -/
theorem C3_mood_bonus_amended (photo : Photo) (query : String) (L : ℚ)
    (r g b : ℕ) (havg : ¬(photo.avg_color = ""))
    (hparse : parseAvgColor photo.avg_color = some (r, g, b))
    (hL : luminance3 r g b = L) :
    ((substrOf "dark" (pyLower query) || substrOf "night" (pyLower query)) = true →
      L < 100 →
      calculate_photo_relevance photo query =
        some (resolution_score_photo photo.width photo.height +
              aspect_ratio_score photo.width photo.height + 3/2)) ∧
    ((substrOf "dark" (pyLower query) || substrOf "night" (pyLower query)) = false →
      (substrOf "bright" (pyLower query) || substrOf "day" (pyLower query) ||
        substrOf "sunny" (pyLower query)) = true →
      150 < L →
      calculate_photo_relevance photo query =
        some (resolution_score_photo photo.width photo.height +
              aspect_ratio_score photo.width photo.height + 3/2)) := by
  constructor
  · intro hcue hlt
    unfold calculate_photo_relevance mood_bonus
    rw [if_neg havg, if_pos hcue, hparse]
    simp only [Option.map_some']
    rw [if_pos (by rw [hL]; exact hlt)]
    norm_num
  · intro hnodark hcue hgt
    unfold calculate_photo_relevance mood_bonus
    rw [if_neg havg, if_neg (by simp [hnodark]), if_pos hcue, hparse]
    simp only [Option.map_some']
    rw [if_pos (by rw [hL]; exact hgt)]
    norm_num

/-- Witness for C3 amended: black average with query "dark", and white average
with query "sunny" (no dark cue), both receive the +1.5 bonus. -/
theorem C3_mood_bonus_amended_witness :
    calculate_photo_relevance wPhotoBlack "dark" =
      some (resolution_score_photo 0 0 + aspect_ratio_score 0 0 + 3/2) ∧
    calculate_photo_relevance wPhotoWhite "sunny" =
      some (resolution_score_photo 0 0 + aspect_ratio_score 0 0 + 3/2) :=
  ⟨(C3_mood_bonus_amended wPhotoBlack "dark" 0 0 0 0 (by decide) (by decide)
      (by norm_num [luminance3])).1 (by decide) (by norm_num),
   (C3_mood_bonus_amended wPhotoWhite "sunny" 255 255 255 255 (by decide) (by decide)
      (by norm_num [luminance3])).2 (by decide) (by decide) (by norm_num)⟩

/-! ## C4: orientation parameter exclusivity -/

/-- C4: whenever a portrait cue word occurs in the lowercased prompt, the
interpreted parameters set orientation to portrait — the landscape word-set is
not consulted (the source checks it only when no orientation was set), so the
parameters are never simultaneously landscape, even if a landscape cue also
occurs in the prompt. -/
theorem C4_orientation_exclusivity (prompt : String)
    (hcue : ∃ w ∈ orientation_portrait, substrOf w (pyLower prompt) = true) :
    (process_prompt_for_pexels prompt).2.orientation = some "portrait" ∧
    (process_prompt_for_pexels prompt).2.orientation ≠ some "landscape" := by
  have hfind : (orientation_portrait.find? (fun w => substrOf w (pyLower prompt))).isSome = true := by
    rw [List.find?_isSome]
    obtain ⟨w, hw, hp⟩ := hcue
    exact ⟨w, hw, hp⟩
  have hmain : (process_prompt_for_pexels prompt).2.orientation = some "portrait" := by
    simp only [process_prompt_for_pexels, interpret_parameters]
    rw [if_pos hfind]
  exact ⟨hmain, by rw [hmain]; simp⟩

/-- Witness for C4 on a prompt containing both a portrait cue ("tall") and a
landscape cue ("wide"). -/
theorem C4_orientation_exclusivity_witness :
    (process_prompt_for_pexels "a tall wide building").2.orientation = some "portrait" :=
  (C4_orientation_exclusivity "a tall wide building" ⟨"tall", by decide, by decide⟩).1

/-! ## Helper lemmas: split produces non-empty tokens, joins of them are
non-empty -/

theorem mem_pySplitAux_ne_nil :
    ∀ (l cur w : List Char), w ∈ pySplitAux cur l → w ≠ [] := by
  intro l
  induction l with
  | nil =>
    intro cur w h
    unfold pySplitAux at h
    split at h
    · simp at h
    · next hne =>
      simp only [List.mem_singleton] at h
      subst h
      simp only [ne_eq, List.reverse_eq_nil_iff]
      simpa [List.isEmpty_iff] using hne
  | cons c cs ih =>
    intro cur w h
    unfold pySplitAux at h
    split at h
    · split at h
      · exact ih [] w h
      · next hne =>
        rcases List.mem_cons.mp h with rfl | h2
        · simp only [ne_eq, List.reverse_eq_nil_iff]
          simpa [List.isEmpty_iff] using hne
        · exact ih [] w h2
    · exact ih (c :: cur) w h

theorem mem_pySplit_ne_empty {s : String} {w : String} (hw : w ∈ pySplit s) :
    w ≠ "" := by
  unfold pySplit at hw
  obtain ⟨l, hl, rfl⟩ := List.mem_map.mp hw
  intro hcontra
  have hdata : l = [] := by simpa using congrArg String.data hcontra
  exact mem_pySplitAux_ne_nil _ _ _ hl hdata

theorem joinSpace_ne_empty :
    ∀ {l : List String}, l ≠ [] → (∀ w ∈ l, w ≠ "") → joinSpace l ≠ ""
  | [], h, _ => absurd rfl h
  | [w], _, hw => by simpa [joinSpace] using hw w (List.mem_singleton.mpr rfl)
  | w :: x :: rest, _, _ => by
    simp only [joinSpace]
    intro hcontra
    have hlen := congrArg String.length hcontra
    rw [String.length_append, String.length_append,
        show (" " : String).length = 1 from rfl,
        show ("" : String).length = 0 from rfl] at hlen
    omega

theorem mem_keyword_survivors_sub {prompt w : String}
    (h : w ∈ keyword_survivors prompt) : w ∈ pySplit (pyLower prompt) :=
  (List.mem_filter.mp h).1

/-! ## C5: the zero-keyword fallback -/

/-- C5 counterexample: the claim says extract never returns the empty string,
but on the empty prompt (which yields zero surviving tokens) both tokenizer
paths return the original prompt, which is the empty string. -/
theorem C5_fallback_counterexample :
    keyword_survivors "" = [] ∧ extract_keywords_for_pexels "" 5 = "" ∧
    simple_survivors "" = [] ∧ extract_keywords_simple "" 5 = "" := by decide

/-- C5 amended: when zero tokens survive the extraction pass, both tokenizer
paths of extract return the original prompt string unchanged; consequently the
result is the empty string only when the original prompt is itself empty — for
every non-empty prompt the result is non-empty. -/
theorem C5_fallback_amended (prompt : String) (max_keywords : ℕ) :
    (keyword_survivors prompt = [] →
      extract_keywords_for_pexels prompt max_keywords = prompt) ∧
    (simple_survivors prompt = [] →
      extract_keywords_simple prompt max_keywords = prompt) ∧
    (extract_keywords_for_pexels prompt max_keywords = "" → prompt = "") ∧
    (extract_keywords_simple prompt max_keywords = "" → prompt = "") := by
  refine ⟨?_, ?_, ?_, ?_⟩
  · intro h
    simp [extract_keywords_for_pexels, h, joinSpace]
  · intro h
    simp [extract_keywords_simple, h, joinSpace]
  · simp only [extract_keywords_for_pexels]
    split
    · exact fun h => h
    · next hne => exact fun h => absurd h hne
  · simp only [extract_keywords_simple]
    split
    · exact fun h => h
    · next hne => exact fun h => absurd h hne

/-- Witness for C5 amended at the whitespace-only prompt: zero tokens survive
and the prompt comes back unchanged (and non-empty). -/
theorem C5_fallback_amended_witness :
    keyword_survivors "   " = [] ∧
    extract_keywords_for_pexels "   " 5 = "   " ∧
    simple_survivors "   " = [] ∧
    extract_keywords_simple "   " 5 = "   " ∧ "   " ≠ "" :=
  ⟨by decide, (C5_fallback_amended "   " 5).1 (by decide), by decide,
   (C5_fallback_amended "   " 5).2.1 (by decide), by decide⟩

/-! ## C6: truncation order of the keyword extractor -/

/-- C6 counterexample: for "ocean waves crashing beautiful" with
max_keywords = 3 the surviving keywords are the four tokens in order, and
truncation keeps the first three — the important modifier "beautiful" is
dropped even though the claim requires all allow-list keywords to be kept
first. -/
theorem C6_truncation_counterexample :
    keyword_survivors "ocean waves crashing beautiful" =
      ["ocean", "waves", "crashing", "beautiful"] ∧
    important_modifiers.contains "beautiful" = true ∧
    extract_keywords_for_pexels "ocean waves crashing beautiful" 3 =
      "ocean waves crashing" ∧
    (pySplit (extract_keywords_for_pexels "ocean waves crashing beautiful" 3)).contains
      "beautiful" = false := by decide

/-- C6 amended: truncation is a plain prefix — the result is exactly the first
max_keywords surviving keywords in their original order, with no reordering in
favour of important modifiers; the allow-list only affects filtering, where an
alphabetic token longer than 2 characters that is an important modifier always
survives (even if it is a stopword). -/
theorem C6_truncation_amended (prompt : String) (max_keywords : ℕ)
    (hne : (keyword_survivors prompt).take max_keywords ≠ []) :
    extract_keywords_for_pexels prompt max_keywords =
      joinSpace ((keyword_survivors prompt).take max_keywords) ∧
    (∀ w, w ∈ pySplit (pyLower prompt) → isAlphaStr w = true → 2 < w.length →
      important_modifiers.contains w = true → w ∈ keyword_survivors prompt) := by
  constructor
  · have hwords : ∀ w ∈ (keyword_survivors prompt).take max_keywords, w ≠ "" :=
      fun w hw => mem_pySplit_ne_empty (mem_keyword_survivors_sub (List.take_subset _ _ hw))
    have hjoin := joinSpace_ne_empty hne hwords
    unfold extract_keywords_for_pexels
    rw [if_neg hjoin]
  · intro w hmem halpha hlen hmod
    unfold keyword_survivors
    refine List.mem_filter.mpr ⟨hmem, ?_⟩
    have hmem2 : w ∈ important_modifiers := by simpa using hmod
    simp [halpha, hlen, hmem2]

/-- Witness for C6 amended on "ocean waves crashing beautiful" with
max_keywords = 3. -/
theorem C6_truncation_amended_witness :
    extract_keywords_for_pexels "ocean waves crashing beautiful" 3 =
      joinSpace ((keyword_survivors "ocean waves crashing beautiful").take 3) ∧
    "beautiful" ∈ keyword_survivors "ocean waves crashing beautiful" :=
  ⟨(C6_truncation_amended "ocean waves crashing beautiful" 3 (by decide)).1,
   (C6_truncation_amended "ocean waves crashing beautiful" 3 (by decide)).2
      "beautiful" (by decide) (by decide) (by decide) (by decide)⟩

/-! ## Helper lemmas: extraction respects the duration floor, provider
failures equal empty responses -/

theorem extract_video_info_duration {d : ℤ} {raw : RawVideo} {v : VideoInfo}
    (h : extract_video_info d raw = some v) : d ≤ v.duration := by
  unfold extract_video_info at h
  split at h
  · exact absurd h (by simp)
  · next hlt =>
    split at h
    · exact absurd h (by simp)
    · split at h
      · exact absurd h (by simp)
      · simp only [Option.some.injEq] at h
        have hdur : v.duration = raw.duration := by rw [← h]
        rw [hdur]
        omega

theorem mem_search_with_query_duration {provider : SearchProvider} {q : String}
    {n : ℕ} {d : ℤ} {e : Option PexelsParams} {v : VideoInfo}
    (h : v ∈ search_with_query provider q n d e) : d ≤ v.duration := by
  unfold search_with_query at h
  split at h
  · simp at h
  · obtain ⟨raw, _, hraw⟩ := List.mem_filterMap.mp h
    exact extract_video_info_duration hraw

theorem search_with_query_recover (provider : SearchProvider) (q : String)
    (n : ℕ) (d : ℤ) (e : Option PexelsParams) :
    search_with_query provider q n d e =
      search_with_query (recover_provider provider) q n d e := by
  unfold search_with_query recover_provider
  cases hr : provider (build_req_params q n e) <;> simp [hr]

theorem search_with_query_error (msg : String) (q : String) (n : ℕ) (d : ℤ)
    (e : Option PexelsParams) :
    search_with_query (fun _ => Except.error msg) q n d e = [] := rfl

theorem strat2_loop_error (msg : String) (c : ℕ) (d : ℤ) :
    ∀ (phrases : List String) (acc : List VideoInfo),
      strat2_loop (fun _ => Except.error msg) c d phrases acc = acc
  | [], _ => rfl
  | p :: rest, acc => by
    simp only [strat2_loop, search_with_query_error, List.append_nil]
    split
    · rfl
    · exact strat2_loop_error msg c d rest acc

theorem strat2_loop_recover (provider : SearchProvider) (c : ℕ) (d : ℤ) :
    ∀ (phrases : List String) (acc : List VideoInfo),
      strat2_loop provider c d phrases acc =
        strat2_loop (recover_provider provider) c d phrases acc
  | [], _ => rfl
  | p :: rest, acc => by
    simp only [strat2_loop, ← search_with_query_recover]
    split
    · rfl
    · exact strat2_loop_recover provider c d rest _

theorem mem_strat2_loop {provider : SearchProvider} {c : ℕ} {d : ℤ} :
    ∀ {phrases : List String} {acc : List VideoInfo} {v : VideoInfo},
      v ∈ strat2_loop provider c d phrases acc → v ∈ acc ∨ d ≤ v.duration := by
  intro phrases
  induction phrases with
  | nil => intro acc v h; exact Or.inl h
  | cons p rest ih =>
    intro acc v h
    simp only [strat2_loop] at h
    split at h
    · rcases List.mem_append.mp h with h1 | h2
      · exact Or.inl h1
      · exact Or.inr (mem_search_with_query_duration h2)
    · rcases ih h with h1 | h2
      · rcases List.mem_append.mp h1 with ha | hb
        · exact Or.inl ha
        · exact Or.inr (mem_search_with_query_duration hb)
      · exact Or.inr h2

theorem dur_ite {d : ℤ} {P : Prop} [Decidable P] {l1 l2 : List VideoInfo}
    (h1 : ∀ x ∈ l1, d ≤ x.duration) (h2 : ∀ x ∈ l2, d ≤ x.duration) :
    ∀ x ∈ (if P then l1 else l2), d ≤ x.duration := by
  intro x hx
  split at hx
  · exact h1 x hx
  · exact h2 x hx

theorem dur_append {d : ℤ} {l1 l2 : List VideoInfo}
    (h1 : ∀ x ∈ l1, d ≤ x.duration) (h2 : ∀ x ∈ l2, d ≤ x.duration) :
    ∀ x ∈ l1 ++ l2, d ≤ x.duration := by
  intro x hx
  rcases List.mem_append.mp hx with h | h
  · exact h1 x h
  · exact h2 x h

theorem dur_strat2 {provider : SearchProvider} {c : ℕ} {d : ℤ}
    {phrases : List String} {acc : List VideoInfo}
    (hacc : ∀ x ∈ acc, d ≤ x.duration) :
    ∀ x ∈ strat2_loop provider c d phrases acc, d ≤ x.duration := by
  intro x hx
  rcases mem_strat2_loop hx with h | h
  · exact hacc x h
  · exact h

theorem gather_all_duration (provider : SearchProvider) (q eq : String)
    (params : PexelsParams) (c : ℕ) (d : ℤ) :
    ∀ x ∈ gather_videos provider q eq params c d, d ≤ x.duration := by
  have hswq : ∀ (q2 : String) (n : ℕ) (e : Option PexelsParams),
      ∀ x ∈ search_with_query provider q2 n d e, d ≤ x.duration :=
    fun _ _ _ _ hx => mem_search_with_query_duration hx
  simp only [gather_videos]
  cases hps : extract_primary_subject q <;> simp only [hps] <;>
    repeat' first
      | apply dur_append
      | apply dur_ite
      | apply dur_strat2
      | exact hswq _ _ _

theorem mem_gather_duration {provider : SearchProvider} {q eq : String}
    {params : PexelsParams} {c : ℕ} {d : ℤ} {v : VideoInfo}
    (h : v ∈ gather_videos provider q eq params c d) : d ≤ v.duration :=
  gather_all_duration provider q eq params c d v h

theorem gather_videos_recover (provider : SearchProvider) (q eq : String)
    (params : PexelsParams) (c : ℕ) (d : ℤ) :
    gather_videos provider q eq params c d =
      gather_videos (recover_provider provider) q eq params c d := by
  simp only [gather_videos, ← search_with_query_recover, ← strat2_loop_recover]

theorem gather_videos_error (msg : String) (q eq : String)
    (params : PexelsParams) (c : ℕ) (d : ℤ) :
    gather_videos (fun _ => Except.error msg) q eq params c d = [] := by
  cases hp : extract_primary_subject q <;>
    simp [gather_videos, search_with_query_error, strat2_loop_error, hp]

/-- C7: a provider call failure during one strategy is caught locally and
treated exactly as that strategy returning zero results — `search_videos`
over any provider equals `search_videos` over the provider with every failure
replaced by an empty response — and no provider error reaches the caller: with
a provider that always fails, `search_videos` returns the empty list. -/
theorem C7_provider_failure_recovery (provider : SearchProvider)
    (has_learner : Bool) (query : String) (count : ℕ) (min_duration : ℤ) :
    search_videos provider has_learner query count min_duration =
      search_videos (recover_provider provider) has_learner query count min_duration ∧
    ∀ msg : String,
      search_videos (fun _ => Except.error msg) has_learner query count min_duration = [] := by
  constructor
  · simp only [search_videos]
    rw [gather_videos_recover]
  · intro msg
    simp only [search_videos]
    rw [gather_videos_error]
    simp [select_top, dedup_by_id, dedup_by_id_aux, stableSortDesc]

/-- C9: determinism — for equal prompts and extensionally equal provider
oracles (fixed provider responses), with the same learner attachment,
`search_videos` returns the identical ordered candidate list: scoring,
sorting, deduplication and truncation are deterministic functions of those
inputs. -/
theorem C9_search_determinism (p1 p2 : SearchProvider) (has_learner : Bool)
    (q1 q2 : String) (count : ℕ) (min_duration : ℤ)
    (hp : ∀ r, p1 r = p2 r) (hq : q1 = q2) :
    search_videos p1 has_learner q1 count min_duration =
      search_videos p2 has_learner q2 count min_duration := by
  subst hq
  have hpe : p1 = p2 := funext hp
  subst hpe
  rfl

/-- Witness for C9 with two syntactically different but extensionally equal
providers. -/
theorem C9_search_determinism_witness :
    search_videos wProviderA true "ocean sunset" 5 3 =
      search_videos wProviderB true "ocean sunset" 5 3 :=
  C9_search_determinism wProviderA wProviderB true "ocean sunset" "ocean sunset"
    5 3 (fun _ => rfl) rfl

/-- C10: every candidate returned by `search_videos` has duration at least the
effective minimum duration (the caller value, possibly raised by the learner
recommendation) — candidates below it are dropped during record extraction in
every strategy — and in particular at least the caller-supplied
`min_duration`. -/
theorem C10_min_duration_filter (provider : SearchProvider) (has_learner : Bool)
    (query : String) (count : ℕ) (min_duration : ℤ) (v : VideoInfo)
    (hv : v ∈ search_videos provider has_learner query count min_duration) :
    effective_min_duration has_learner query min_duration ≤ v.duration ∧
    min_duration ≤ v.duration := by
  unfold search_videos at hv
  have h2 := mem_gather_duration (mem_select_top hv)
  refine ⟨h2, le_trans ?_ h2⟩
  unfold effective_min_duration
  split
  · exact le_max_left _ _
  · exact le_refl min_duration

/-- Witness for C10: the concrete search returns the ten-second candidate,
which satisfies the caller floor of 3. -/
theorem C10_min_duration_filter_witness :
    wInfo ∈ search_videos wProvider false "ocean" 1 3 ∧ (3 : ℤ) ≤ wInfo.duration :=
  ⟨by decide, (C10_min_duration_filter wProvider false "ocean" 1 3 wInfo (by decide)).2⟩

/-! ## Helper lemmas: the pattern store of the trainer -/

theorem lookup_upsert_self (key : String) (f : PatternData → PatternData)
    (init : PatternData) :
    ∀ pats : TrainerPatterns,
      List.lookup key (upsert_pattern key f init pats) =
        some (f ((List.lookup key pats).getD init))
  | [] => by simp [upsert_pattern, List.lookup]
  | (k, d) :: rest => by
    by_cases hk : k = key
    · subst hk
      simp [upsert_pattern, List.lookup]
    · have h1 : (k == key) = false := beq_eq_false_iff_ne.mpr hk
      have h2 : (key == k) = false := beq_eq_false_iff_ne.mpr (Ne.symm hk)
      simp [upsert_pattern, List.lookup, h1, h2,
        lookup_upsert_self key f init rest]

theorem lookup_upsert_other (key : String) (f : PatternData → PatternData)
    (init : PatternData) (k2 : String) (hne : k2 ≠ key) :
    ∀ pats : TrainerPatterns,
      List.lookup k2 (upsert_pattern key f init pats) = List.lookup k2 pats
  | [] => by
    have h1 : (k2 == key) = false := beq_eq_false_iff_ne.mpr hne
    simp [upsert_pattern, List.lookup, h1]
  | (k, d) :: rest => by
    by_cases hk : k = key
    · subst hk
      have h1 : (k2 == k) = false := beq_eq_false_iff_ne.mpr hne
      simp [upsert_pattern, List.lookup, h1]
    · have h1 : (k == key) = false := beq_eq_false_iff_ne.mpr hk
      cases hbeq : (k2 == k) <;>
        simp [upsert_pattern, List.lookup, h1, hbeq,
          lookup_upsert_other key f init k2 hne rest]

theorem count_at_learn_self (pats : TrainerPatterns) (prompt : String)
    (content : GeneratedContent) :
    count_at (learn_from_success pats prompt content) (get_pattern_key prompt) =
      count_at pats (get_pattern_key prompt) + 1 := by
  unfold learn_from_success count_at
  rw [lookup_upsert_self]
  cases hl : List.lookup (get_pattern_key prompt) pats <;>
    · simp only [hl, Option.getD_some, Option.getD_none]
      cases hq : content.search_query <;> simp only [hq] <;>
        first
          | rfl
          | (split <;> rfl)

theorem count_at_learn_other (pats : TrainerPatterns) (prompt : String)
    (content : GeneratedContent) (k2 : String)
    (hne : k2 ≠ get_pattern_key prompt) :
    count_at (learn_from_success pats prompt content) k2 = count_at pats k2 := by
  unfold learn_from_success count_at
  rw [lookup_upsert_other _ _ _ _ hne]

theorem count_at_record_mono (s : TrainerState) (prompt : String)
    (content : GeneratedContent) (rating : ℤ) (comments k2 : String) :
    count_at s.successful_patterns k2 ≤
      count_at (record_user_feedback s prompt content rating comments).successful_patterns k2 := by
  unfold record_user_feedback
  split
  · by_cases hk : k2 = get_pattern_key prompt
    · subst hk
      show _ ≤ count_at (learn_from_success s.successful_patterns prompt content) _
      rw [count_at_learn_self]
      omega
    · show _ ≤ count_at (learn_from_success s.successful_patterns prompt content) _
      rw [count_at_learn_other _ _ _ _ hk]
  · split <;> exact le_refl _

theorem confidence_eq_count (pats : TrainerPatterns) (prompt : String) :
    (get_optimal_search_strategy pats prompt).confidence =
      if 5 ≤ count_at pats (get_pattern_key prompt) then (9/10 : ℚ) else 1/2 := by
  unfold get_optimal_search_strategy
  cases hl : List.lookup (get_pattern_key prompt) pats
  · simp [hl, count_at]
  · next pat =>
    have hc : count_at pats (get_pattern_key prompt) = pat.count := by
      simp [count_at, hl]
    rw [hc]
    simp only [hl]
    by_cases h5 : 5 ≤ pat.count
    · rw [if_pos h5, if_pos h5]
      split <;> rfl
    · rw [if_neg h5, if_neg h5]

theorem count_at_fold (k : String) :
    ∀ (events : List (String × GeneratedContent × ℤ)) (s : TrainerState),
      (∀ e ∈ events, get_pattern_key e.1 = k ∧ 4 ≤ e.2.2) →
      count_at ((events.foldl
          (fun s e => record_user_feedback s e.1 e.2.1 e.2.2 "") s).successful_patterns) k =
        count_at s.successful_patterns k + events.length
  | [], s, _ => by simp
  | e :: rest, s, hk => by
    obtain ⟨hke, hre⟩ := hk e (List.mem_cons_self _ _)
    simp only [List.foldl_cons]
    rw [count_at_fold k rest _ (fun x hx => hk x (List.mem_cons_of_mem _ hx))]
    have hstep : count_at (record_user_feedback s e.1 e.2.1 e.2.2 "").successful_patterns k =
        count_at s.successful_patterns k + 1 := by
      unfold record_user_feedback
      rw [if_pos hre]
      show count_at (learn_from_success s.successful_patterns e.1 e.2.1) k = _
      rw [← hke, count_at_learn_self]
    rw [hstep]
    simp only [List.length_cons]
    omega

/-- C8: starting from an empty learning store, after N successful feedback
recordings whose prompts all classify to the same pattern key, the stored
pattern count equals N; no feedback operation ever decreases a stored count;
the confidence of the recommended strategy is non-decreasing in the count and
equals its high value 0.9 as soon as the count reaches 5. -/
theorem C8_learning_monotonicity (k : String)
    (events : List (String × GeneratedContent × ℤ))
    (hk : ∀ e ∈ events, get_pattern_key e.1 = k ∧ 4 ≤ e.2.2) :
    count_at ((events.foldl (fun s e => record_user_feedback s e.1 e.2.1 e.2.2 "")
        initial_trainer_state).successful_patterns) k = events.length ∧
    (∀ (s : TrainerState) (prompt : String) (content : GeneratedContent)
        (rating : ℤ) (comments k2 : String),
        count_at s.successful_patterns k2 ≤
          count_at (record_user_feedback s prompt content rating comments).successful_patterns k2) ∧
    (∀ (pats1 pats2 : TrainerPatterns) (prompt : String),
        count_at pats1 (get_pattern_key prompt) ≤ count_at pats2 (get_pattern_key prompt) →
        (get_optimal_search_strategy pats1 prompt).confidence ≤
          (get_optimal_search_strategy pats2 prompt).confidence) ∧
    (∀ (pats : TrainerPatterns) (prompt : String),
        5 ≤ count_at pats (get_pattern_key prompt) →
        (get_optimal_search_strategy pats prompt).confidence = 9/10) := by
  refine ⟨?_, count_at_record_mono, ?_, ?_⟩
  · rw [count_at_fold k events initial_trainer_state hk]
    simp [count_at, initial_trainer_state]
  · intro pats1 pats2 prompt hle
    rw [confidence_eq_count, confidence_eq_count]
    by_cases h1 : 5 ≤ count_at pats1 (get_pattern_key prompt)
    · rw [if_pos h1, if_pos (le_trans h1 hle)]
    · by_cases h2 : 5 ≤ count_at pats2 (get_pattern_key prompt)
      · rw [if_neg h1, if_pos h2]
        norm_num
      · rw [if_neg h1, if_neg h2]
  · intro pats prompt h5
    rw [confidence_eq_count, if_pos h5]

/-- Witness for C8: five identical successful recordings for the prompt
"ocean" yield count 5, and a store holding a count of 5 yields the high
confidence. -/
theorem C8_learning_monotonicity_witness :
    count_at (((List.replicate 5 wEvent).foldl
        (fun s e => record_user_feedback s e.1 e.2.1 e.2.2 "")
        initial_trainer_state).successful_patterns) "ocean" = 5 ∧
    (get_optimal_search_strategy wPatterns "ocean").confidence = 9/10 :=
  ⟨(C8_learning_monotonicity "ocean" (List.replicate 5 wEvent) (by decide)).1,
   (C8_learning_monotonicity "ocean" (List.replicate 5 wEvent) (by decide)).2.2.2
      wPatterns "ocean" (by decide)⟩
